import Mathlib

/-!
Verification development for the honeypots medical-protocol servers
(`dicom_server.py` and `hl7_server.py`): a shallow embedding of the
session event-normalization and response-synthesis logic, together with
theorems settling the specification claims about it.

Conventions of the embedding:
* Python byte strings are `List Nat` (each element one octet).
* Python `dict`s are insertion-ordered association lists (`List (String × _)`)
  with `dictUpdate` mirroring `dict.update` / key overwrite semantics.
* Python exceptions are `Except PyError _`: a raised exception is
  `Except.error`, a normal return is `Except.ok`.
* A generator's run is its (finite) list of yielded items.
-/

namespace Honeypots

/-! ## Status codes (dicom_server.py, module level) -/

def SUCCESS : Nat := 0x0000

def FAILURE : Nat := 0xC000

def CANCEL : Nat := 0xFE00

def PENDING : Nat := 0xFF00

/-! ## Python exceptions relevant to the embedded code -/

/-- The Python exceptions that the embedded handlers can raise or suppress. -/
inductive PyError where
  | valueError (msg : String)
  | unicodeDecodeError
  | attributeError
  | connectionResetError
  | other (msg : String)
  deriving DecidableEq, Repr

/-! ## Query/Retrieve events (`handle_get`, `handle_move`) -/

/-- The demonstration dataset `GET_REQUEST_DS` loaded at module import from
pynetdicom's bundled test file `dicom_files/CTImageStorage.dcm`; its contents
are opaque to the handler logic, which only ever passes it through. -/
structure DicomDataset where
  sourceFile : String
  deriving DecidableEq, Repr

def GET_REQUEST_DS : DicomDataset := ⟨"CTImageStorage.dcm"⟩

/-- A C-GET / C-MOVE intervention event: `event.identifier` is the query
dataset (`none` when the attribute is `None`, otherwise the list of element
keywords it contains), `is_cancelled` the peer cancellation signal polled
inside the generator loop. -/
structure QREvent where
  identifier : Option (List String)
  is_cancelled : Bool
  deriving DecidableEq, Repr

/-- Python truthiness of `event.identifier`: `None` and an empty
`pydicom.Dataset` are falsy. -/
def datasetTruthy : Option (List String) → Bool
  | none => false
  | some keys => !keys.isEmpty

/-- The guard `not event.identifier or "QueryRetrieveLevel" not in event.identifier`
shared by `handle_get` and `handle_move` (short-circuit: the membership test is
only reached when the identifier is truthy). -/
def lacksQueryRetrieveLevel (identifier : Option (List String)) : Bool :=
  !datasetTruthy identifier ||
    match identifier with
    | none => true
    | some keys => !keys.contains "QueryRetrieveLevel"

/-- One item yielded by the `handle_get` generator: either the operation
count (`yield len(instances)`) or a `(status, dataset)` pair. -/
inductive GetYield where
  | count (n : Nat)
  | result (status : Nat) (payload : Option DicomDataset)
  deriving DecidableEq, Repr

/-- The `for instance in instances` loop body of `handle_get`: poll the
cancellation signal before each pending result. -/
def getLoop (cancelled : Bool) : List DicomDataset → List GetYield
  | [] => []
  | instance_ :: rest =>
    if cancelled then [.result CANCEL none]
    else .result PENDING (some instance_) :: getLoop cancelled rest

/-- Embeds `handle_get` (dicom_server.py): the full yield sequence of the C-GET
generator for one request. -/
def handle_get (event : QREvent) : List GetYield :=
  if lacksQueryRetrieveLevel event.identifier then
    [.result FAILURE none]
  else
    let instances := [GET_REQUEST_DS]
    .count instances.length :: getLoop event.is_cancelled instances

/-- Embeds `handle_move` (dicom_server.py): each yielded item is the Python pair
`(status-or-destination, dataset)`; `(None, None)` is the yield that makes
pynetdicom answer 0xA801 "move destination unknown". -/
def handle_move (event : QREvent) : List (Option Nat × Option DicomDataset) :=
  if lacksQueryRetrieveLevel event.identifier then
    [(some FAILURE, none)]
  else
    [(none, none)]

/-! ## Log records emitted through `_q_s.log` -/

/-- A value stored in a log record's `data` mapping. -/
inductive LogValue where
  | str (s : String)
  | num (n : Nat)
  | absent
  deriving DecidableEq, Repr

/-- One structured audit event passed to `_q_s.log` (the event-sink
collaborator adds the timestamp and server identity). -/
structure LogRecord where
  action : String
  srcIp : Option String := none
  srcPort : Option Nat := none
  username : Option String := none
  status : Option String := none
  data : List (String × LogValue) := []
  deriving DecidableEq, Repr

/-- The generic part of a pynetdicom intervention event as consumed by
`_log_event`: the event name/description, the requestor's peer address and
the optional presentation context (abstract syntax, transfer-syntax
rendering). -/
structure GenericEvent where
  eventName : String
  eventDescription : String
  requestorAddress : String
  requestorPort : Option Nat
  context : Option (String × String)
  deriving DecidableEq, Repr

/-- Embeds `_log_event` (dicom_server.py): the record handed to `_q_s.log` for an
intervention event; context data is appended after the caller-supplied
`additional_data` keys, the description comes first. -/
def logEvent (ev : GenericEvent) (additional : List (String × LogValue)) : LogRecord :=
  { action := (ev.eventName.replace "EVT_" "").replace "_" "-"
    srcIp := some ev.requestorAddress
    srcPort := ev.requestorPort
    data := ("description", .str ev.eventDescription) ::
      (additional ++
        match ev.context with
        | some (a, t) => [("abstract_syntax", .str a), ("transfer_syntax", .str t)]
        | none => []) }

/-! ## `handle_store` and the generic `handle_event` -/

/-- A C-STORE intervention event: the generic part plus
`event.request.AffectedSOPInstanceUID`, the serialized file meta information
written by `write_file_meta_info` and the raw payload octets
`event.request.DataSet.getvalue()`. -/
structure StoreEvent where
  base : GenericEvent
  affectedSOPInstanceUID : String
  fileMetaBytes : List Nat
  dataSetBytes : List Nat
  deriving DecidableEq, Repr

/-- Result of running a store-capable handler: the DIMSE status returned to
pynetdicom, the artifact written (path and file contents), the audit records
and the critical-severity diagnostics. -/
structure StoreOutcome where
  status : Nat
  artifact : Option (String × List Nat)
  logs : List LogRecord
  criticalLogs : List String
  deriving DecidableEq, Repr

/-- The 4-byte DICOM magic marker `b"DICM"` written after the preamble. -/
def dicmMagic : List Nat := [0x44, 0x49, 0x43, 0x4D]

/-- The artifact file contents assembled by `handle_store`: 128-byte zero
preamble, magic marker, serialized file meta header, raw payload octets. -/
def storeFileBytes (ev : StoreEvent) : List Nat :=
  List.replicate 128 0 ++ dicmMagic ++ ev.fileMetaBytes ++ ev.dataSetBytes

/-- Embeds `handle_store` (dicom_server.py). `writable` abstracts whether the
file-system operations inside the `try` block succeed; on failure the
exception is caught, reported at critical severity and `FAILURE` returned. -/
def handle_store (storageDir : String) (writable : Bool) (ev : StoreEvent) : StoreOutcome :=
  let eventLog := logEvent ev.base []
  if writable then
    let path := storageDir ++ "/" ++ ev.affectedSOPInstanceUID
    let contents := storeFileBytes ev
    { status := SUCCESS
      artifact := some (path, contents)
      logs := [eventLog,
        { action := "store_image"
          data := [("path", .str path), ("size", .num contents.length)] }]
      criticalLogs := [] }
  else
    { status := FAILURE
      artifact := none
      logs := [eventLog]
      criticalLogs := ["Exception occurred during store event"] }

/-- Embeds `handle_event` (dicom_server.py): the generic intervention-event handler;
logs the event and returns `SUCCESS`, writing nothing. -/
def handle_event (ev : GenericEvent) : StoreOutcome :=
  { status := SUCCESS
    artifact := none
    logs := [logEvent ev []]
    criticalLogs := [] }

/-! ## Handler registration (`server_main`) -/

def UNINTERESTING_EVENTS : List String :=
  ["EVT_ASYNC_OPS", "EVT_SOP_EXTENDED", "EVT_SOP_COMMON"]

/-- Which handler function a registered event name is bound to. -/
inductive HandlerKind where
  | login
  | get
  | move
  | store
  | generic
  deriving DecidableEq, Repr

/-- The `special_handlers` dict of `server_main`: `handle_store` is added
only when `store_images` is enabled. -/
def specialHandlers (store_images : Bool) : List (String × HandlerKind) :=
  [("EVT_USER_ID", .login), ("EVT_C_GET", .get), ("EVT_C_MOVE", .move)] ++
    if store_images then [("EVT_C_STORE", .store)] else []

/-- Embeds `special_handlers.get(event_.name, handle_event)`. -/
def handlerFor (store_images : Bool) (eventName : String) : HandlerKind :=
  ((specialHandlers store_images).lookup eventName).getD .generic

/-- The `handlers` list passed to `start_server`: every intervention event
not in `UNINTERESTING_EVENTS`, bound to its special handler or the generic
one. -/
def registeredHandlers (store_images : Bool) (interventionEvents : List String) :
    List (String × HandlerKind) :=
  (interventionEvents.filter (fun n => !UNINTERESTING_EVENTS.contains n)).map
    (fun n => (n, handlerFor store_images n))

/-- Embeds `QDicomServer.__init__`: `store_images = bool(getattr(self, "store_images",
False))` — the configuration value when one was set, `False` otherwise. -/
def initStoreImages (configured : Option Bool) : Bool :=
  configured.getD false

/-! ## The object flattener `_dicom_obj_to_dict` -/

/-- Python `str.strip(chars)`: remove every character contained in `cs` from
both ends of the string. -/
def stripChars (cs : List Char) (s : String) : String :=
  String.mk (((s.toList.dropWhile cs.contains).reverse.dropWhile cs.contains).reverse)

/-- Python `s.split(c)` for a single-character separator: split at every
occurrence of `c` (`"".split(c) = [""]`). -/
def splitOnChar (c : Char) (s : String) : List String :=
  (s.toList.foldr
    (fun ch acc =>
      if ch = c then [] :: acc
      else
        match acc with
        | h :: t => (ch :: h) :: t
        | [] => [[ch]])
    [[]]).map String.mk

/-- The per-line pass of `_dicom_obj_to_dict`: `key, value = line.split(":")`
(a `ValueError` — not exactly two parts — skips the line), the
pre-strip emptiness check, then `key.strip("\t -")` and `value.strip("'= ")`.
Returns the entry the line contributes, or `none` when it is skipped. -/
def lineEntry (line : String) : Option (String × String) :=
  match splitOnChar ':' line with
  | [key, value] =>
    if key = "" || value = "" then none
    else some (stripChars ['\t', ' ', '-'] key, stripChars ['\x27', '=', ' '] value)
  | _ => none

/-- A pynetdicom PDU object as `_dicom_obj_to_dict` sees it: its formatted
`str` rendering split into lines, plus the three optional typed accessors the
function probes with `hasattr` (`application_context_name`,
`presentation_data_value_items`, `presentation_context`, and
`user_information.user_data`). -/
inductive PduObj where
  | mk (rendering : List String)
       (applicationContextName : Option String)
       (presentationDataValueItems : Option (List PduObj))
       (presentationContexts : Option (List PduObj))
       (userInformationUserData : Option (List PduObj))

/-- A value of the resulting dict: a stripped string from the line pass, or a
list of recursively flattened child objects. -/
inductive DictValue where
  | str (s : String)
  | objList (items : List (List (String × DictValue)))

/-- Embeds `dict.update({k: v})`: overwrite the value in place when the key exists
(a Python dict holds each key exactly once, so the first occurrence is the
only one), append the new entry otherwise. -/
def dictUpdate : List (String × DictValue) → String → DictValue → List (String × DictValue)
  | [], k, v => [(k, v)]
  | (a, b) :: rest, k, v =>
    if a = k then (k, v) :: rest else (a, b) :: dictUpdate rest k v

/-- The line-scanning `for` loop of `_dicom_obj_to_dict`, starting from the
accumulated `result` dict `d`: a skipped line leaves the dict unchanged, a
recovered entry is applied through `result.update`. -/
def flattenLinesFrom (d : List (String × DictValue)) : List String → List (String × DictValue)
  | [] => d
  | line :: rest =>
    flattenLinesFrom
      (match lineEntry line with
        | none => d
        | some (k, v) => dictUpdate d k (.str v))
      rest

/-- The line-scanning pass of `_dicom_obj_to_dict` over the whole rendering,
from the initial `result = {}`. -/
def flattenLines (lines : List String) : List (String × DictValue) :=
  flattenLinesFrom [] lines

/-- Specification-side dict lookup: the value of the first entry carrying
the key (Python `d[k]`). -/
def dictLookup : List (String × DictValue) → String → Option DictValue
  | [], _ => none
  | (k, v) :: rest, k' => if k' = k then some v else dictLookup rest k'

/-- Specification-side reference for the line pass: the stripped value of
the *last* line whose recovered entry carries the key `k`, if any. -/
def lastLineValue (lines : List String) (k : String) : Option String :=
  match lines with
  | [] => none
  | line :: rest =>
    match lastLineValue rest k with
    | some v => some v
    | none =>
      match lineEntry line with
      | some (k', v) => if k' = k then some v else none
      | none => none

mutual

/-- Embeds `_dicom_obj_to_dict` (dicom_server.py): the line pass followed by the
three typed-accessor attachments (the two presentation accessors share the
result key `"presentation_context"`). -/
def dicomObjToDict : PduObj → List (String × DictValue)
  | .mk rendering appCtx pdvItems presCtxs userData =>
    let r1 := flattenLines rendering
    let r2 :=
      match appCtx with
      | some name => dictUpdate r1 "application_context" (.str name)
      | none => r1
    let r3 :=
      match dicomObjOptListToDict pdvItems with
      | some dicts => dictUpdate r2 "presentation_context" (.objList dicts)
      | none => r2
    let r4 :=
      match dicomObjOptListToDict presCtxs with
      | some dicts => dictUpdate r3 "presentation_context" (.objList dicts)
      | none => r3
    match dicomObjOptListToDict userData with
    | some dicts => dictUpdate r4 "user_information" (.objList dicts)
    | none => r4

/-- Flatten an optional child-object collection. -/
def dicomObjOptListToDict : Option (List PduObj) → Option (List (List (String × DictValue)))
  | none => none
  | some items => some (dicomObjListToDict items)

/-- Flatten each member of a child-object collection. -/
def dicomObjListToDict : List PduObj → List (List (String × DictValue))
  | [] => []
  | p :: ps => dicomObjToDict p :: dicomObjListToDict ps

end

/-! ## Identity negotiation (`handle_login`) -/

/-- The `UserIdType` enumeration (dicom_server.py). -/
inductive UserIdType where
  | username
  | username_and_passcode
  | kerberos
  | saml
  | jwt
  deriving DecidableEq, Repr

/-- Embeds `UserIdType.name` in Python. -/
def UserIdType.name : UserIdType → String
  | .username => "username"
  | .username_and_passcode => "username_and_passcode"
  | .kerberos => "kerberos"
  | .saml => "saml"
  | .jwt => "jwt"

/-- Embeds `UserIdType(value)`: the enum constructor raises `ValueError` for any
value outside the closed enumeration 1–5. -/
def userIdTypeOfNat (n : Nat) : Except PyError UserIdType :=
  match n with
  | 1 => .ok .username
  | 2 => .ok .username_and_passcode
  | 3 => .ok .kerberos
  | 4 => .ok .saml
  | 5 => .ok .jwt
  | _ => .error (.valueError "is not a valid UserIdType")

/-- Is `b` a UTF-8 continuation octet (`0x80–0xBF`)? -/
def isUtf8Cont (b : Nat) : Bool :=
  0x80 ≤ b && b < 0xC0

/-- Strict UTF-8 decoding as performed by Python's `bytes.decode()`:
rejects truncated sequences, continuation errors, overlong encodings,
surrogates and code points above `U+10FFFF`. -/
def utf8Decode : List Nat → Option (List Char)
  | [] => some []
  | b1 :: rest =>
    if b1 < 0x80 then
      (utf8Decode rest).map (fun cs => Char.ofNat b1 :: cs)
    else if b1 < 0xC2 then none
    else if b1 < 0xE0 then
      match rest with
      | b2 :: rest2 =>
        if isUtf8Cont b2 then
          (utf8Decode rest2).map (fun cs =>
            Char.ofNat ((b1 - 0xC0) * 0x40 + (b2 - 0x80)) :: cs)
        else none
      | [] => none
    else if b1 < 0xF0 then
      match rest with
      | b2 :: b3 :: rest3 =>
        if isUtf8Cont b2 ∧ isUtf8Cont b3 ∧ (b1 = 0xE0 → 0xA0 ≤ b2) ∧ (b1 = 0xED → b2 < 0xA0) then
          (utf8Decode rest3).map (fun cs =>
            Char.ofNat ((b1 - 0xE0) * 0x1000 + (b2 - 0x80) * 0x40 + (b3 - 0x80)) :: cs)
        else none
      | _ => none
    else if b1 < 0xF5 then
      match rest with
      | b2 :: b3 :: b4 :: rest4 =>
        if isUtf8Cont b2 ∧ isUtf8Cont b3 ∧ isUtf8Cont b4 ∧
            (b1 = 0xF0 → 0x90 ≤ b2) ∧ (b1 = 0xF4 → b2 < 0x90) then
          (utf8Decode rest4).map (fun cs =>
            Char.ofNat
              ((b1 - 0xF0) * 0x40000 + (b2 - 0x80) * 0x1000 + (b3 - 0x80) * 0x40 + (b4 - 0x80))
              :: cs)
        else none
      | _ => none
    else none

/-- Embeds `field.decode()` on an event byte field: a missing field (`None`) raises
`AttributeError`, invalid UTF-8 raises `UnicodeDecodeError`. -/
def decodeField : Option (List Nat) → Except PyError String
  | none => .error .attributeError
  | some bs =>
    match utf8Decode bs with
    | some cs => .ok (String.mk cs)
    | none => .error .unicodeDecodeError

/-- A USER-ID intervention event: the raw identity-negotiation material plus
the requestor's peer address (`event.assoc.requestor`). -/
structure LoginEvent where
  user_id_type : Nat
  primary_field : Option (List Nat)
  secondary_field : Option (List Nat)
  requestorAddress : String
  requestorPort : Option Nat
  deriving DecidableEq, Repr

/-- Result of a completed `handle_login` call: the `(accepted, response)`
pair returned to pynetdicom, the audit records emitted, and the
`check_login` collaborator calls made (username, password, ip, port). -/
structure LoginOutcome where
  accepted : Bool
  response : Option (List Nat)
  logs : List LogRecord
  credentialChecks : List (String × String × String × Option Nat)
  deriving DecidableEq, Repr

/-- Embeds `_log_id_event` (dicom_server.py) followed by `handle_login`'s
`return False, None`: logs the decoded primary field under the
kind-specific key `data_type` with `status = "failed"`. -/
def logIdEvent (dataType : String) (ev : LoginEvent) : Except PyError LoginOutcome := do
  let kind ← userIdTypeOfNat ev.user_id_type
  let presented ← decodeField ev.primary_field
  .ok { accepted := false
        response := none
        logs := [{ action := "login"
                   status := some "failed"
                   data := [("login_format", .str kind.name), (dataType, .str presented)] }]
        credentialChecks := [] }

/-- Embeds `handle_login` (dicom_server.py). `checkLogin` is the external
credential-check collaborator `_q_s.check_login`; a raised Python exception
is an `Except.error` propagating out of the handler. -/
def handle_login (checkLogin : String → String → String → Option Nat → Bool)
    (ev : LoginEvent) : Except PyError LoginOutcome := do
  let user_id_type ← userIdTypeOfNat ev.user_id_type
  match user_id_type with
  | .username_and_passcode =>
    let username ← decodeField ev.primary_field
    let password ← decodeField ev.secondary_field
    let ok := checkLogin username password ev.requestorAddress ev.requestorPort
    .ok { accepted := ok
          response := none
          logs := []
          credentialChecks := [(username, password, ev.requestorAddress, ev.requestorPort)] }
  | .username =>
    let username ← decodeField ev.primary_field
    .ok { accepted := true
          response := none
          logs := [{ action := "login"
                     username := some username
                     status := some "success"
                     data := [("login_format", .str "username")] }]
          credentialChecks := [] }
  | .kerberos => logIdEvent "kerberos_ticket" ev
  | .jwt => logIdEvent "json_web_token" ev
  | .saml => logIdEvent "saml_assertion" ev

/-! ## Exception suppression at the transport layer -/

/-- Embeds `contextlib.suppress(E)` around a statement: a raised exception of the
suppressed class is swallowed; any other outcome passes through. -/
def suppressing (isSuppressed : PyError → Bool) (body : Except PyError Unit) :
    Except PyError Unit :=
  match body with
  | .ok _ => .ok ()
  | .error e => if isSuppressed e then .ok () else .error e

/-- Embeds `CustomDUL._send` (dicom_server.py): wraps `super()._send(pdu)` in
`suppress(AttributeError)`. The second component is the list of error-level
log entries the wrapper itself writes — none ever. -/
def customDulSend (superSend : Except PyError Unit) : Except PyError Unit × List String :=
  (suppressing (fun e => e = .attributeError) superSend, [])

/-- Embeds `CustomMLLPRequestHandler.handle` (hl7_server.py): wraps
`super().handle()` in `suppress(ConnectionResetError)`; again no error-level
log entry is ever written by the wrapper. -/
def customMllpHandle (superHandle : Except PyError Unit) :
    Except PyError Unit × List String :=
  (suppressing (fun e => e = .connectionResetError) superHandle, [])

/-! ## The HL7 PDQ handler (`CustomPDQHandler`, hl7_server.py) -/

/-- A successfully parsed HL7 message as the handler consumes it: the MSH
header fields reachable through `_get_optional_field` (an absent field is an
`AttributeError` caught there, i.e. `none`), plus an opaque rendering of the
segment list that `_parse_message` turns into the `query` audit record. -/
structure Hl7Message where
  msh : List (String × String)
  segmentsRendering : String
  deriving DecidableEq, Repr

/-- Embeds `_get_optional_field`: `getattr(self.message.msh, field).value`, with
`AttributeError` (missing field) mapped to `None`. -/
def getOptionalField (m : Hl7Message) (field : String) : Option String :=
  m.msh.lookup field

/-- Python `x or default` on an optional string: `None` and the empty string
are falsy. -/
def orDefault (v : Option String) (default : String) : String :=
  match v with
  | none => default
  | some s => if s = "" then default else s

/-- The ACK response under construction (`Message("ACK", version=...)`
mutated by `_populate_header` and the final `MSA` segment). -/
structure AckResponse where
  version : String
  headerFields : List (String × String)
  msh7 : Option String
  msaSegment : Option String
  deriving DecidableEq, Repr

/-- Embeds `Message("ACK", version=v)`: a fresh ACK with nothing populated yet. -/
def emptyAck (version : String) : AckResponse :=
  { version := version, headerFields := [], msh7 := none, msaSegment := none }

/-- Split a string at every `_` or `^` character (`re.split(r"[_^]", s)`). -/
def hl7Split (s : String) : List String :=
  (s.toList.foldr
    (fun c acc =>
      if c = '_' ∨ c = '^' then [] :: acc
      else
        match acc with
        | h :: t => (c :: h) :: t
        | [] => [[c]])
    [[]]).map String.mk

/-- Embeds `_get_response_message_type`: extract the event code from `MSH_9`
(`"ADT^A04" ↦ "ACK^A04"`); a missing field (`TypeError` from `re.split(None)`)
or fewer than two parts (`ValueError` on unpacking) falls back to `"ACK"`. -/
def getResponseMessageType (m : Hl7Message) : String :=
  match getOptionalField m "MSH_9" with
  | none => "ACK"
  | some s =>
    match hl7Split s with
    | _ :: event :: _ => "ACK^" ++ event
    | _ => "ACK"

/-- Embeds `_add_field_to_header`: silently skipped when the value is `None`. -/
def addFieldToHeader (ack : AckResponse) (field : String) (value : Option String) :
    AckResponse :=
  match value with
  | none => ack
  | some v => { ack with headerFields := ack.headerFields ++ [(field, v)] }

/-- Embeds `_populate_header`: swap sending/receiving application and facility,
set the response message type, a fresh control id, the processing id, and
overwrite `msh_7` with the millisecond timestamp (`controlId` and
`timestamp` stand for the `randint` / `datetime.now` results). -/
def populateHeader (m : Hl7Message) (controlId : Nat) (timestamp : String)
    (ack : AckResponse) : AckResponse :=
  let a1 := addFieldToHeader ack "MSH_3" (getOptionalField m "MSH_5")
  let a2 := addFieldToHeader a1 "MSH_4" (getOptionalField m "MSH_6")
  let a3 := addFieldToHeader a2 "MSH_5" (getOptionalField m "MSH_3")
  let a4 := addFieldToHeader a3 "MSH_6" (getOptionalField m "MSH_4")
  let a5 := addFieldToHeader a4 "MSH_9" (some (getResponseMessageType m))
  let a6 := addFieldToHeader a5 "MSH_10" (some (toString controlId))
  let a7 := addFieldToHeader a6 "MSH_11" (getOptionalField m "MSH_11")
  { a7 with msh7 := some timestamp }

/-- The `f"MSA|AA|{control_id}"` segment text (`None` renders as `"None"`). -/
def msaSegmentText (m : Hl7Message) : String :=
  "MSA|AA|" ++
    match getOptionalField m "MSH_10" with
    | some s => s
    | none => "None"

/-- Embeds `Message.to_mllp()`: the MLLP framing (VT ... FS CR) around an ER7
rendering of the response; the exact rendering is library-owned, what
matters here is that it is a function of the built response and never the
empty string. -/
def toMllp (a : AckResponse) : String :=
  "\x0b" ++ "MSH|" ++ a.version ++ "|" ++
    String.intercalate "|" (a.headerFields.map (fun p => p.1 ++ "=" ++ p.2)) ++
    (match a.msh7 with | some t => "|" ++ t | none => "") ++
    (match a.msaSegment with | some s => "\x0d" ++ s | none => "") ++
    "\x1c\x0d"

/-- The handler state after `CustomPDQHandler.__init__`: a parse failure is
caught and leaves `message`/`version` as `None`, and then no response object
is created either. -/
structure PDQState where
  message : Option Hl7Message
  version : Option String
  response : Option AckResponse
  deriving DecidableEq, Repr

/-- The parsed version of an incoming message: `MSH_12`, defaulting to
`"2.5"` when absent or empty. -/
def pdqVersion (m : Hl7Message) : String :=
  orDefault (getOptionalField m "MSH_12") "2.5"

/-- Embeds `CustomPDQHandler.__init__` (hl7_server.py). `parseResult` is the
outcome of `parse_message(self.incoming_message)` — `none` when it raised. -/
def initPDQ (parseResult : Option Hl7Message) : PDQState :=
  match parseResult with
  | none => { message := none, version := none, response := none }
  | some m =>
    { message := some m
      version := some (pdqVersion m)
      response := some (emptyAck (pdqVersion m)) }

/-- Where inside `reply`'s `try` block an exception is raised, if any:
during the `query` audit log (`_parse_message` walks hostile library
objects), during `_populate_header`, or while building/adding the `MSA`
segment (`parse_segment` sees a hostile version/control id). -/
inductive ReplyStep where
  | logQuery
  | populateHeader
  | buildAckSegment
  deriving DecidableEq, Repr

/-- The `query` audit record emitted by `reply`. -/
def queryLog (m : Hl7Message) : LogRecord :=
  { action := "query", data := [("message", .str m.segmentsRendering)] }

/-- Embeds `CustomPDQHandler.reply` (hl7_server.py). Returns
`(returned string, audit records, debug diagnostics)`; `failAt` is the step
of the `try` block at which an exception is raised (`none`: no failure). An
`Except.error` would be an exception escaping the handler. -/
def reply (st : PDQState) (controlId : Nat) (timestamp : String)
    (failAt : Option ReplyStep) : Except PyError (String × List LogRecord × List String) :=
  match st.message with
  | none => .ok ("", [], [])
  | some m =>
    match st.response with
    | none => .error .attributeError
    | some ack0 =>
      match failAt with
      | some .logQuery =>
        .ok (toMllp ack0, [], ["Error during response generation"])
      | some .populateHeader =>
        .ok (toMllp ack0, [queryLog m], ["Error during response generation"])
      | some .buildAckSegment =>
        let ack1 := populateHeader m controlId timestamp ack0
        .ok (toMllp ack1, [queryLog m], ["Error during response generation"])
      | none =>
        let ack1 := populateHeader m controlId timestamp ack0
        let ack2 := { ack1 with msaSegment := some (msaSegmentText m) }
        .ok (toMllp ack2, [queryLog m], [])

/-- A concrete C-STORE event used as counterexample input: a 2-byte
serialized file meta header and a 3-byte payload. -/
def storeEventSample : StoreEvent :=
  { base := { eventName := "EVT_C_STORE"
              eventDescription := "C-STORE request received"
              requestorAddress := "127.0.0.1"
              requestorPort := some 61112
              context := none }
    affectedSOPInstanceUID := "1.2.3"
    fileMetaBytes := [7, 7]
    dataSetBytes := [1, 2, 3] }

/-! # Theorems -/

/-- C1: a Query-Get request without a recognized scope indicator yields
exactly one failure status with no result and stops; with the indicator, the
handler yields first the pending result-count announcement `1` and then
exactly one further event — cancel-and-stop when the peer's cancellation
signal is set, otherwise pending with the fixed demonstration payload. -/
theorem handle_get_yield_sequence (ev : QREvent) :
    (lacksQueryRetrieveLevel ev.identifier = true →
      handle_get ev = [.result FAILURE none]) ∧
    (lacksQueryRetrieveLevel ev.identifier = false →
      handle_get ev =
        [.count 1,
         if ev.is_cancelled then .result CANCEL none
         else .result PENDING (some GET_REQUEST_DS)]) := by
  constructor <;> intro h <;>
    cases hc : ev.is_cancelled <;>
      simp [handle_get, getLoop, h, hc]

/-- Witness for C1 at a concrete request carrying the scope indicator. -/
theorem handle_get_yield_sequence_witness :
    handle_get ⟨some ["QueryRetrieveLevel"], false⟩ =
      [.count 1, .result PENDING (some GET_REQUEST_DS)] := by
  have h := (handle_get_yield_sequence ⟨some ["QueryRetrieveLevel"], false⟩).2 (by decide)
  simpa using h

/-- C5: a Query-Move request with a valid scope indicator always yields the
single `(None, None)` reply — the outcome pynetdicom answers with 0xA801
"move destination unknown" — and never a success status; without the
indicator it yields exactly one failure status with no result. -/
theorem handle_move_destination_unknown (ev : QREvent) :
    (lacksQueryRetrieveLevel ev.identifier = false →
      handle_move ev = [(none, none)] ∧
      ∀ item ∈ handle_move ev, item.1 ≠ some SUCCESS) ∧
    (lacksQueryRetrieveLevel ev.identifier = true →
      handle_move ev = [(some FAILURE, none)]) := by
  constructor <;> intro h <;> simp [handle_move, h]

/-- Witness for C5 at a concrete request carrying the scope indicator. -/
theorem handle_move_destination_unknown_witness :
    handle_move ⟨some ["QueryRetrieveLevel", "PatientID"], true⟩ = [(none, none)] :=
  ((handle_move_destination_unknown ⟨some ["QueryRetrieveLevel", "PatientID"], true⟩).1
    (by decide)).1

/-- Counterexample to C2 as stated: at a successful store of a request whose
raw payload octets have size `N = 3`, the emitted `store_image` audit event
reports `size = 137` (the full artifact size, preamble + magic + serialized
header + payload), not `size = N`. -/
theorem handle_store_size_counterexample :
    (handle_store "/tmp/dicom_storage" true storeEventSample).status = SUCCESS ∧
    storeEventSample.dataSetBytes.length = 3 ∧
    (handle_store "/tmp/dicom_storage" true storeEventSample).logs =
      [logEvent storeEventSample.base [],
       { action := "store_image"
         data := [("path", .str "/tmp/dicom_storage/1.2.3"), ("size", .num 137)] }] ∧
    (137 : Nat) ≠ 3 := by
  refine ⟨rfl, rfl, rfl, by decide⟩

/-- C2 (amended): a successful store replies `SUCCESS` and writes the artifact
`zero-preamble(128) ++ "DICM" ++ serialized header ++ payload` to the path
named by the request's unique instance identifier under the configured
directory, and the audit event reports the size of that whole file,
`132 + |header| + N`; a write failure replies `FAILURE` with no artifact. -/
theorem handle_store_spec (dir : String) (ev : StoreEvent) :
    (handle_store dir true ev).status = SUCCESS ∧
    (handle_store dir true ev).artifact =
      some (dir ++ "/" ++ ev.affectedSOPInstanceUID,
        List.replicate 128 0 ++ dicmMagic ++ ev.fileMetaBytes ++ ev.dataSetBytes) ∧
    (handle_store dir true ev).logs =
      [logEvent ev.base [],
       { action := "store_image"
         data := [("path", .str (dir ++ "/" ++ ev.affectedSOPInstanceUID)),
                  ("size", .num (132 + (ev.fileMetaBytes.length + ev.dataSetBytes.length)))] }] ∧
    (handle_store dir false ev).status = FAILURE ∧
    (handle_store dir false ev).artifact = none := by
  refine ⟨rfl, rfl, ?_, rfl, rfl⟩
  simp [handle_store, storeFileBytes, dicmMagic]
  ring_nf

/-- Fact: `UserIdType(n)` raises `ValueError` for every value outside 1–5. -/
theorem userIdTypeOfNat_out (n : Nat) (h : ¬(1 ≤ n ∧ n ≤ 5)) :
    userIdTypeOfNat n = .error (.valueError "is not a valid UserIdType") := by
  match n with
  | 0 => rfl
  | 1 | 2 | 3 | 4 | 5 => omega
  | n + 6 => rfl

/-- Counterexample to C3 as stated: at `rawKind = 6` the handler raises
`ValueError` out of `handle_login` instead of returning a classification-error
result, and at `rawKind = 3` with the non-UTF-8 primary field `b"\xff"` it
raises `UnicodeDecodeError` instead of returning a decode-error result. -/
theorem handle_login_raises_counterexample :
    handle_login (fun _ _ _ _ => false) ⟨6, some [], some [], "127.0.0.1", some 11112⟩ =
      .error (.valueError "is not a valid UserIdType") ∧
    handle_login (fun _ _ _ _ => false) ⟨3, some [0xFF], none, "127.0.0.1", some 11112⟩ =
      .error .unicodeDecodeError :=
  ⟨rfl, rfl⟩

/-- C3 (amended): the five defined `rawKind` values map to their assertion
kinds through the closed enumeration, but identity classification is *not*
exception-free: any other `rawKind` makes `handle_login` raise `ValueError`
(the enum constructor), a missing primary byte field raises `AttributeError`,
and a non-UTF-8-decodable one raises `UnicodeDecodeError`; these exceptions
propagate out of the handler to the protocol engine instead of being turned
into classification or decode error results. -/
theorem handle_login_classification (chk : String → String → String → Option Nat → Bool)
    (ev : LoginEvent) (bs : List Nat) (u : String) (bs2 : List Nat) :
    (userIdTypeOfNat 1 = .ok .username ∧
     userIdTypeOfNat 2 = .ok .username_and_passcode ∧
     userIdTypeOfNat 3 = .ok .kerberos ∧
     userIdTypeOfNat 4 = .ok .saml ∧
     userIdTypeOfNat 5 = .ok .jwt) ∧
    (¬(1 ≤ ev.user_id_type ∧ ev.user_id_type ≤ 5) →
      handle_login chk ev = .error (.valueError "is not a valid UserIdType")) ∧
    (1 ≤ ev.user_id_type ∧ ev.user_id_type ≤ 5 →
      ev.primary_field = none →
        handle_login chk ev = .error .attributeError) ∧
    (1 ≤ ev.user_id_type ∧ ev.user_id_type ≤ 5 →
      ev.primary_field = some bs → utf8Decode bs = none →
        handle_login chk ev = .error .unicodeDecodeError) ∧
    (ev.user_id_type = 2 → decodeField ev.primary_field = .ok u →
      ev.secondary_field = none →
        handle_login chk ev = .error .attributeError) ∧
    (ev.user_id_type = 2 → decodeField ev.primary_field = .ok u →
      ev.secondary_field = some bs2 → utf8Decode bs2 = none →
        handle_login chk ev = .error .unicodeDecodeError) := by
  obtain ⟨n, pf, sf, addr, port⟩ := ev
  refine ⟨⟨rfl, rfl, rfl, rfl, rfl⟩, ?_, ?_, ?_, ?_, ?_⟩
  · intro h
    simp only [handle_login, userIdTypeOfNat_out n h, Bind.bind, Except.bind]
  · rintro ⟨h1, h5⟩ hp
    subst hp
    interval_cases n <;> rfl
  · rintro ⟨h1, h5⟩ hp hdec
    subst hp
    interval_cases n <;>
      simp [handle_login, logIdEvent, userIdTypeOfNat, decodeField, hdec, Bind.bind, Except.bind]
  · intro hkind hu hsf
    simp only at hkind hu hsf
    subst hkind
    subst hsf
    simp only [handle_login, userIdTypeOfNat, Bind.bind, Except.bind, hu]
    rfl
  · intro hkind hu hsf hdec2
    simp only at hkind hu hsf
    subst hkind
    subst hsf
    simp only [handle_login, userIdTypeOfNat, Bind.bind, Except.bind, hu]
    simp [decodeField, hdec2]

/-- Witness for C3 (amended) at `rawKind = 0`: the handler raises. -/
theorem handle_login_classification_witness :
    handle_login (fun _ _ _ _ => true) ⟨0, none, none, "10.0.0.1", none⟩ =
      .error (.valueError "is not a valid UserIdType") ∧
    handle_login (fun _ _ _ _ => true) ⟨2, some [0x61], none, "10.0.0.1", none⟩ =
      .error .attributeError ∧
    handle_login (fun _ _ _ _ => true) ⟨2, some [0x61], some [0xFF], "10.0.0.1", none⟩ =
      .error .unicodeDecodeError :=
  ⟨(handle_login_classification (fun _ _ _ _ => true) ⟨0, none, none, "10.0.0.1", none⟩
      [] "" []).2.1 (by decide),
   (handle_login_classification (fun _ _ _ _ => true) ⟨2, some [0x61], none, "10.0.0.1", none⟩
      [] "a" []).2.2.2.2.1 rfl rfl rfl,
   (handle_login_classification (fun _ _ _ _ => true)
      ⟨2, some [0x61], some [0xFF], "10.0.0.1", none⟩
      [] "a" [0xFF]).2.2.2.2.2 rfl rfl rfl rfl⟩

/-- C6: a `username`-kind identity negotiation whose primary field decodes to
`u` is auto-accepted with no credential verification: the handler emits one
`login` event with `status = "success"` and the decoded username, calls the
credential-check collaborator zero times and returns the accepted result
`(True, None)`. -/
theorem handle_login_username_auto_accept
    (chk : String → String → String → Option Nat → Bool) (ev : LoginEvent) (u : String)
    (hkind : ev.user_id_type = 1) (hdec : decodeField ev.primary_field = .ok u) :
    handle_login chk ev =
      .ok { accepted := true
            response := none
            logs := [{ action := "login"
                       username := some u
                       status := some "success"
                       data := [("login_format", .str "username")] }]
            credentialChecks := [] } := by
  obtain ⟨n, pf, sf, addr, port⟩ := ev
  simp only at hkind hdec
  subst hkind
  simp [handle_login, userIdTypeOfNat, hdec, Bind.bind, Except.bind]

/-- Witness for C6: the concrete username `b"admin"`. -/
theorem handle_login_username_auto_accept_witness :
    handle_login (fun _ _ _ _ => false)
        ⟨1, some [0x61, 0x64, 0x6D, 0x69, 0x6E], none, "127.0.0.1", some 104⟩ =
      .ok { accepted := true
            response := none
            logs := [{ action := "login"
                       username := some "admin"
                       status := some "success"
                       data := [("login_format", .str "username")] }]
            credentialChecks := [] } :=
  handle_login_username_auto_accept (fun _ _ _ _ => false)
    ⟨1, some [0x61, 0x64, 0x6D, 0x69, 0x6E], none, "127.0.0.1", some 104⟩ "admin" rfl rfl

/-- C7: a kerberos-ticket, saml-assertion or json-web-token identity
negotiation whose primary field decodes to `s` performs no verification
(zero credential-check calls), always returns the rejected result
`(False, None)`, and emits one `login` event with `status = "failed"`
carrying the decoded raw material under the kind-specific key. -/
theorem handle_login_ticket_kinds_rejected
    (chk : String → String → String → Option Nat → Bool) (ev : LoginEvent) (s : String)
    (hdec : decodeField ev.primary_field = .ok s) :
    (ev.user_id_type = 3 →
      handle_login chk ev =
        .ok { accepted := false
              response := none
              logs := [{ action := "login"
                         status := some "failed"
                         data := [("login_format", .str "kerberos"),
                                  ("kerberos_ticket", .str s)] }]
              credentialChecks := [] }) ∧
    (ev.user_id_type = 4 →
      handle_login chk ev =
        .ok { accepted := false
              response := none
              logs := [{ action := "login"
                         status := some "failed"
                         data := [("login_format", .str "saml"),
                                  ("saml_assertion", .str s)] }]
              credentialChecks := [] }) ∧
    (ev.user_id_type = 5 →
      handle_login chk ev =
        .ok { accepted := false
              response := none
              logs := [{ action := "login"
                         status := some "failed"
                         data := [("login_format", .str "jwt"),
                                  ("json_web_token", .str s)] }]
              credentialChecks := [] }) := by
  obtain ⟨n, pf, sf, addr, port⟩ := ev
  simp only at hdec
  refine ⟨?_, ?_, ?_⟩ <;> intro hkind <;> simp only at hkind <;> subst hkind <;>
    simp [handle_login, logIdEvent, userIdTypeOfNat, UserIdType.name, hdec,
      Bind.bind, Except.bind]

/-- Witness for C7: a concrete kerberos-ticket negotiation presenting
`b"TICKET"`. -/
theorem handle_login_ticket_kinds_rejected_witness :
    handle_login (fun _ _ _ _ => true)
        ⟨3, some [0x54, 0x49, 0x43, 0x4B, 0x45, 0x54], none, "127.0.0.1", none⟩ =
      .ok { accepted := false
            response := none
            logs := [{ action := "login"
                       status := some "failed"
                       data := [("login_format", .str "kerberos"),
                                ("kerberos_ticket", .str "TICKET")] }]
            credentialChecks := [] } :=
  (handle_login_ticket_kinds_rejected (fun _ _ _ _ => true)
    ⟨3, some [0x54, 0x49, 0x43, 0x4B, 0x45, 0x54], none, "127.0.0.1", none⟩
    "TICKET" rfl).1 rfl

/-- C8: whatever the underlying transport call does, `CustomDUL._send`
swallows a raised `AttributeError` (returning normally) and never lets one
escape, `CustomMLLPRequestHandler.handle` does the same for
`ConnectionResetError`, and neither wrapper writes a single error-level log
entry — so the suppressed noise never aborts the server process and never
surfaces in the error log. -/
theorem transport_noise_suppressed (sendOutcome handleOutcome : Except PyError Unit) :
    (customDulSend sendOutcome).2 = [] ∧
    (sendOutcome = .error .attributeError → customDulSend sendOutcome = (.ok (), [])) ∧
    (customDulSend sendOutcome).1 ≠ .error .attributeError ∧
    (customMllpHandle handleOutcome).2 = [] ∧
    (handleOutcome = .error .connectionResetError →
      customMllpHandle handleOutcome = (.ok (), [])) ∧
    (customMllpHandle handleOutcome).1 ≠ .error .connectionResetError := by
  refine ⟨rfl, ?_, ?_, rfl, ?_, ?_⟩
  · rintro rfl; rfl
  · cases sendOutcome with
    | ok u => simp [customDulSend, suppressing]
    | error e =>
      simp only [customDulSend, suppressing]
      split <;> simp_all
  · rintro rfl; rfl
  · cases handleOutcome with
    | ok u => simp [customMllpHandle, suppressing]
    | error e =>
      simp only [customMllpHandle, suppressing]
      split <;> simp_all

/-- Witness for C8: the two suppressed exception classes at concrete raised
outcomes. -/
theorem transport_noise_suppressed_witness :
    customDulSend (.error .attributeError) = (.ok (), []) ∧
    customMllpHandle (.error .connectionResetError) = (.ok (), []) :=
  ⟨(transport_noise_suppressed (.error .attributeError) (.error .connectionResetError)).2.1
      rfl,
   (transport_noise_suppressed (.error .attributeError)
      (.error .connectionResetError)).2.2.2.2.1 rfl⟩

/-- C9: with `store_images` unset the configuration defaults to `False`, no
store-specific handler is registered (the C-STORE intervention event is bound
to the generic handler, never to `handle_store`), and the generic handler
logs one audit event and replies `SUCCESS` while writing no artifact. -/
theorem store_disabled_generic_handler (interventionEvents : List String)
    (ev : GenericEvent) (h : "EVT_C_STORE" ∈ interventionEvents) :
    initStoreImages none = false ∧
    handlerFor false "EVT_C_STORE" = .generic ∧
    ("EVT_C_STORE", HandlerKind.generic) ∈ registeredHandlers false interventionEvents ∧
    (∀ k, ("EVT_C_STORE", k) ∈ registeredHandlers false interventionEvents →
      k = .generic) ∧
    handle_event ev =
      { status := SUCCESS
        artifact := none
        logs := [logEvent ev []]
        criticalLogs := [] } := by
  refine ⟨rfl, rfl, ?_, ?_, rfl⟩
  · simp only [registeredHandlers, List.mem_map, List.mem_filter]
    exact ⟨"EVT_C_STORE", ⟨h, by decide⟩, rfl⟩
  · intro k hk
    simp only [registeredHandlers, List.mem_map, List.mem_filter] at hk
    obtain ⟨name, _, hpair⟩ := hk
    obtain ⟨hname, hk⟩ := Prod.mk.injEq .. ▸ hpair
    rw [← hk, hname]
    rfl

/-- Witness for C9: the singleton intervention-event list containing only the
C-STORE event. -/
theorem store_disabled_generic_handler_witness :
    ("EVT_C_STORE", HandlerKind.generic) ∈ registeredHandlers false ["EVT_C_STORE"] :=
  (store_disabled_generic_handler ["EVT_C_STORE"]
    ⟨"EVT_C_STORE", "d", "127.0.0.1", some 1, none⟩ (by simp)).2.2.1

/-- C10: an unparseable incoming HL7 message leaves `message` and `version`
as `None` and makes `reply` return the empty string with no acknowledgement,
no audit record, no diagnostic and no exception; `reply` never raises on any
handler state produced by `__init__`; and when response generation fails
after a successful parse the error is reported through exactly one
debug-severity diagnostic while the acknowledgement built so far is still
returned (the fresh ACK when the failure precedes `_populate_header`, the
header-populated ACK when the `MSA` segment construction fails). -/
theorem pdq_reply_error_handling (controlId : Nat) (timestamp : String)
    (failAt : Option ReplyStep) (m : Hl7Message) (parseResult : Option Hl7Message) :
    (initPDQ none).message = none ∧
    (initPDQ none).version = none ∧
    reply (initPDQ none) controlId timestamp failAt = .ok ("", [], []) ∧
    (∃ out, reply (initPDQ parseResult) controlId timestamp failAt = .ok out) ∧
    reply (initPDQ (some m)) controlId timestamp (some .logQuery) =
      .ok (toMllp (emptyAck (pdqVersion m)), [], ["Error during response generation"]) ∧
    reply (initPDQ (some m)) controlId timestamp (some .populateHeader) =
      .ok (toMllp (emptyAck (pdqVersion m)), [queryLog m],
        ["Error during response generation"]) ∧
    reply (initPDQ (some m)) controlId timestamp (some .buildAckSegment) =
      .ok (toMllp (populateHeader m controlId timestamp (emptyAck (pdqVersion m))),
        [queryLog m], ["Error during response generation"]) := by
  refine ⟨rfl, rfl, ?_, ?_, rfl, rfl, rfl⟩
  · cases failAt with
    | none => rfl
    | some step => cases step <;> rfl
  · cases parseResult with
    | none =>
      cases failAt with
      | none => exact ⟨_, rfl⟩
      | some step => cases step <;> exact ⟨_, rfl⟩
    | some m' =>
      cases failAt with
      | none => exact ⟨_, rfl⟩
      | some step => cases step <;> exact ⟨_, rfl⟩

/-- Fact: `dict.update({k: v})` makes `k` map to `v` and leaves every other key's
value unchanged. -/
theorem dictLookup_dictUpdate (d : List (String × DictValue)) (k k' : String)
    (v : DictValue) :
    dictLookup (dictUpdate d k v) k' = if k' = k then some v else dictLookup d k' := by
  induction d with
  | nil =>
    by_cases hk : k' = k <;> simp [dictUpdate, dictLookup, hk]
  | cons p rest ih =>
    obtain ⟨a, b⟩ := p
    by_cases ha : a = k
    · subst ha
      by_cases hk : k' = a <;> simp [dictUpdate, dictLookup, hk]
    · by_cases hk : k' = a
      · subst hk
        have ha' : ¬k' = k := fun h => ha h
        simp [dictUpdate, dictLookup, ha, ha']
      · simp [dictUpdate, dictLookup, ha, hk, ih]

/-- The line-scanning loop computes, at every key, the value of the last
well-formed line carrying that key (falling back to the initial dict). -/
theorem flattenLinesFrom_lookup (lines : List String) (d : List (String × DictValue))
    (k : String) :
    dictLookup (flattenLinesFrom d lines) k =
      match lastLineValue lines k with
      | some v => some (.str v)
      | none => dictLookup d k := by
  induction lines generalizing d with
  | nil => rfl
  | cons line rest ih =>
    cases hE : lineEntry line with
    | none =>
      cases hL : lastLineValue rest k <;>
        simp [flattenLinesFrom, lastLineValue, hE, hL, ih]
    | some kv =>
      obtain ⟨k', v⟩ := kv
      cases hL : lastLineValue rest k with
      | none =>
        by_cases hk : k' = k <;>
          simp [flattenLinesFrom, lastLineValue, hE, hL, ih, dictLookup_dictUpdate, hk,
            Ne.symm]
      | some w =>
        simp [flattenLinesFrom, lastLineValue, hE, hL, ih]

/-- The loop run over a list with a malformed line inserted anywhere equals
the run without it. -/
theorem flattenLinesFrom_drop_malformed (pre post : List String) (badLine : String)
    (d : List (String × DictValue)) (h : lineEntry badLine = none) :
    flattenLinesFrom d (pre ++ badLine :: post) = flattenLinesFrom d (pre ++ post) := by
  induction pre generalizing d with
  | nil => simp [flattenLinesFrom, h]
  | cons line rest ih => simp [flattenLinesFrom, ih]

/-- The keys after an update are the old keys plus possibly `k`. -/
theorem mem_keys_dictUpdate (d : List (String × DictValue)) (k x : String) (v : DictValue) :
    x ∈ (dictUpdate d k v).map Prod.fst ↔ x = k ∨ x ∈ d.map Prod.fst := by
  induction d with
  | nil => simp [dictUpdate]
  | cons p rest ih =>
    obtain ⟨a, b⟩ := p
    by_cases ha : a = k
    · subst ha
      simp [dictUpdate]
    · simp [dictUpdate, ha, ih]
      tauto

/-- Key update preserves key distinctness. -/
theorem dictUpdate_keys_nodup (d : List (String × DictValue)) (k : String) (v : DictValue)
    (h : (d.map Prod.fst).Nodup) : ((dictUpdate d k v).map Prod.fst).Nodup := by
  induction d with
  | nil => simp [dictUpdate]
  | cons p rest ih =>
    obtain ⟨a, b⟩ := p
    simp only [List.map_cons, List.nodup_cons] at h
    by_cases ha : a = k
    · subst ha
      simpa [dictUpdate] using h
    · have hnotin : a ∉ (dictUpdate rest k v).map Prod.fst := by
        rw [mem_keys_dictUpdate]
        rintro (rfl | hmem)
        · exact ha rfl
        · exact h.1 hmem
      simp only [dictUpdate, if_neg ha, List.map_cons, List.nodup_cons]
      exact ⟨hnotin, ih h.2⟩

/-- The loop preserves key distinctness. -/
theorem flattenLinesFrom_nodup (lines : List String) (d : List (String × DictValue))
    (h : (d.map Prod.fst).Nodup) : ((flattenLinesFrom d lines).map Prod.fst).Nodup := by
  induction lines generalizing d with
  | nil => exact h
  | cons line rest ih =>
    cases hE : lineEntry line with
    | none => simpa [flattenLinesFrom, hE] using ih _ h
    | some kv =>
      obtain ⟨k', v⟩ := kv
      simpa [flattenLinesFrom, hE] using ih _ (dictUpdate_keys_nodup d k' (.str v) h)

/-- For an object with none of the three composite-children accessors, the
flattener is exactly its line-scanning pass. -/
theorem dicomObjToDict_no_children (lines : List String) :
    dicomObjToDict (.mk lines none none none none) = flattenLines lines := by
  simp [dicomObjToDict, dicomObjOptListToDict, flattenLines]

/-- Counterexample to C4 as stated: the rendering `["a:x", "a:y"]` consists of
two well-formed `label : value` lines, yet flatten returns a single-entry
mapping — the two lines share the trimmed label `"a"` and the second
overwrites the first, so there is not one entry per such line. -/
theorem flatten_duplicate_label_counterexample :
    lineEntry "a:x" = some ("a", "x") ∧
    lineEntry "a:y" = some ("a", "y") ∧
    dicomObjToDict (.mk ["a:x", "a:y"] none none none none) = [("a", .str "y")] ∧
    (1 : Nat) ≠ 2 := by
  refine ⟨rfl, rfl, ?_, by decide⟩
  rw [dicomObjToDict_no_children]
  rfl

/-- C4 (amended): for an object without the composite-children accessors,
flatten is the line-scanning pass; the resulting mapping holds each key at
most once, its value at any key is the trimmed value of the *last*
well-formed `label : value` line carrying that trimmed label (absent when no
such line exists — in particular every well-formed line's label is present),
lines that split into anything other than a non-empty label and non-empty
value contribute nothing wherever they occur, and flatten is a total
function of the rendering. -/
theorem flatten_line_semantics (lines : List String) (k : String)
    (pre post : List String) (badLine : String) :
    dicomObjToDict (.mk lines none none none none) = flattenLines lines ∧
    dictLookup (flattenLines lines) k = (lastLineValue lines k).map DictValue.str ∧
    ((flattenLines lines).map Prod.fst).Nodup ∧
    (lineEntry badLine = none →
      flattenLines (pre ++ badLine :: post) = flattenLines (pre ++ post)) := by
  refine ⟨dicomObjToDict_no_children lines, ?_, ?_, ?_⟩
  · rw [flattenLines, flattenLinesFrom_lookup]
    cases lastLineValue lines k <;> rfl
  · exact flattenLinesFrom_nodup lines [] (by simp)
  · intro h
    rw [flattenLines, flattenLines, flattenLinesFrom_drop_malformed pre post badLine [] h]

/-- Witness for C4 (amended) on a concrete rendering: the malformed lines
`"no colon"`, `"a:b:c"` and `":empty label"` are dropped, and the key
`"Called AE Title"` maps to its line's stripped value. -/
theorem flatten_line_semantics_witness :
    flattenLines ["  Called AE Title : 'PACS    '", "no colon"] =
      flattenLines ["  Called AE Title : 'PACS    '"] ∧
    dictLookup (flattenLines ["  Called AE Title : 'PACS    '", "no colon"])
        "Called AE Title" =
      some (.str "PACS") := by
  constructor
  · exact (flatten_line_semantics [] "" ["  Called AE Title : 'PACS    '"] [] "no colon").2.2.2
      rfl
  · have h := (flatten_line_semantics ["  Called AE Title : 'PACS    '", "no colon"]
      "Called AE Title" [] [] "").2.1
    rw [h]
    rfl

end Honeypots
